import Mathlib

/-!
Verification of BubbleTrans (a desktop comic-translation GUI) against its
natural-language specification.  The Python sources under `src/` are shallowly
embedded below: pure fragments become Lean functions, the Qt / filesystem /
network boundaries become explicit oracle parameters, and Python exceptions
become `Except`.  Machine-independent Python string operations (`strip`,
`startswith`, `replace`, `split`, `join`) are re-implemented over `List Char`
with Python semantics so that theorem statements can be evaluated on concrete
inputs.
-/

/-! ## Python string primitives -/

/-- The whitespace characters stripped by Python `str.strip()` (ASCII part:
space, tab, newline, carriage return, vertical tab, form feed). -/
def isPyWs (c : Char) : Bool :=
  c = ' ' || c = '\t' || c = '\n' || c = '\r' || c = Char.ofNat 11 || c = Char.ofNat 12

/-- `str.strip()` on a character list: drop whitespace from both ends. -/
def stripList (l : List Char) : List Char :=
  ((l.dropWhile isPyWs).reverse.dropWhile isPyWs).reverse

/-- Python `s.strip()`. -/
def pyStrip (s : String) : String :=
  String.mk (stripList s.data)

/-- Python `s.startswith(pre)`. -/
def pyStartsWith (s pre : String) : Bool :=
  pre.data.isPrefixOf s.data

/-- One fuel-indexed pass of Python `str.replace`: scan left to right, replace
every non-overlapping occurrence of `old` by `new`.  `fuel` bounds the number
of scanned positions; `fuel = l.length` is always enough. -/
def replaceAux (old new : List Char) : Nat → List Char → List Char
  | _, [] => []
  | 0, l => l
  | fuel + 1, c :: rest =>
    if !old.isEmpty && old.isPrefixOf (c :: rest) then
      new ++ replaceAux old new fuel (rest.drop (old.length - 1))
    else
      c :: replaceAux old new fuel rest

/-- Python `s.replace(old, new)` (for the non-empty patterns used in the code). -/
def pyReplace (s old new : String) : String :=
  String.mk (replaceAux old.data new.data s.data.length s.data)

/-- Python `s.split("\n")` on a character list (single-character separator). -/
def pySplitLines : List Char → List (List Char)
  | [] => [[]]
  | c :: rest =>
    if c = '\n' then [] :: pySplitLines rest
    else
      match pySplitLines rest with
      | [] => [[c]]
      | h :: t => (c :: h) :: t

/-- Python `"\n".join(...)` on character lists. -/
def joinNL : List (List Char) → List Char
  | [] => []
  | [x] => x
  | x :: y :: rest => x ++ '\n' :: joinNL (y :: rest)

/-- Python `"\n".join(...)` on strings. -/
def joinLines : List String → String
  | [] => ""
  | [x] => x
  | x :: y :: rest => x ++ "\n" ++ joinLines (y :: rest)

/-! ## Python values (the shapes handled by `OCREngine._extract_text`) -/

/-- A Python value of the shapes `_extract_text` may receive: `None`, `bool`,
`int`, `str`, `list`, `tuple`, `dict` (string keys). -/
inductive PyVal where
  | none
  | bool (b : Bool)
  | int (n : Int)
  | str (s : String)
  | list (xs : List PyVal)
  | tuple (xs : List PyVal)
  | dict (entries : List (String × PyVal))

/-- Python `d.get(k)`: first entry with the key, `None`-as-`Option.none` otherwise. -/
def dictGet (d : List (String × PyVal)) (k : String) : Option PyVal :=
  (d.find? (fun p => p.1 == k)).map (fun p => p.2)

/-- Python truthiness (`bool(v)`) for the modelled value shapes. -/
def pyTruthy : PyVal → Bool
  | .none => false
  | .bool b => b
  | .int n => n != 0
  | .str s => s != ""
  | .list xs => !xs.isEmpty
  | .tuple xs => !xs.isEmpty
  | .dict d => !d.isEmpty

mutual

/-- Python `repr(v)` (approximation: quote characters inside strings are not
re-escaped, `repr` of a string always uses single quotes). -/
def pyRepr : PyVal → String
  | .none => "None"
  | .bool true => "True"
  | .bool false => "False"
  | .int n => toString n
  | .str s => "\x27" ++ s ++ "\x27"
  | .list xs => "[" ++ pyReprList xs ++ "]"
  | .tuple xs => "(" ++ pyReprList xs ++ (if xs.length = 1 then ",)" else ")")
  | .dict d => "\x7b" ++ pyReprEntries d ++ "\x7d"
termination_by v => sizeOf v

/-- Comma-separated `repr`s of list elements. -/
def pyReprList : List PyVal → String
  | [] => ""
  | [x] => pyRepr x
  | x :: y :: rest => pyRepr x ++ ", " ++ pyReprList (y :: rest)
termination_by l => sizeOf l

/-- Comma-separated `repr`s of dict entries. -/
def pyReprEntries : List (String × PyVal) → String
  | [] => ""
  | [(k, v)] => "\x27" ++ k ++ "\x27: " ++ pyRepr v
  | (k, v) :: e :: rest => "\x27" ++ k ++ "\x27: " ++ pyRepr v ++ ", " ++ pyReprEntries (e :: rest)
termination_by l => sizeOf l

end

/-- Python `str(v)`. -/
def pyStr : PyVal → String
  | .str s => s
  | v => pyRepr v

/-- Python `xs[i]` on a list/tuple body: raises `IndexError` when out of range. -/
def pyIndex (xs : List PyVal) (i : Nat) : Except String PyVal :=
  match xs[i]? with
  | some v => .ok v
  | Option.none => .error "IndexError"

/-! ## `OCREngine._extract_text` (src/src/engine/ocr.py, lines 157-243) -/

/-- The stripped text of a string item when non-blank (`isinstance(x, str) and
x.strip()` guard of the inner loops). -/
def strOfNonblank : PyVal → Option String
  | .str s => if pyStrip s = "" then Option.none else some (pyStrip s)
  | _ => Option.none

/-- Dict-item helper: `value = item.get(key); if isinstance(value, list):`
append the stripped non-blank string elements of `value` to `lines`. -/
def appendKeyList (d : List (String × PyVal)) (k : String) (lines : List String) : List String :=
  match dictGet d k with
  | some (.list xs) => lines ++ xs.filterMap strOfNonblank
  | _ => lines

/-- Python `item.get("rec_text") or item.get("text")` (`or` returns the first
truthy operand; a missing key is `None`, which is falsy). -/
def pyGetOr (d : List (String × PyVal)) : PyVal :=
  match dictGet d "rec_text" with
  | some v => if pyTruthy v then v else (dictGet d "text").getD .none
  | Option.none => (dictGet d "text").getD .none

/-- Inner access of the old-style `[box, (text, score)]` item: `second[0]`,
guarded by `len(second) >= 1`. -/
def processInner (ys : List PyVal) (lines : List String) : Except String (List String) :=
  if 1 ≤ ys.length then
    match pyIndex ys 0 with
    | .error e => .error e
    | .ok t =>
      match t with
      | .str s => .ok (if pyStrip s = "" then lines else lines ++ [pyStrip s])
      | _ => .ok lines
  else .ok lines

/-- List/tuple item of the main loop: `item[1]` guarded by `len(item) >= 2`. -/
def processPair (xs : List PyVal) (lines : List String) : Except String (List String) :=
  if 2 ≤ xs.length then
    match pyIndex xs 1 with
    | .error e => .error e
    | .ok second =>
      match second with
      | .list ys => processInner ys lines
      | .tuple ys => processInner ys lines
      | _ => .ok lines
  else .ok lines

/-- One iteration of `for item in result:` in `_extract_text` (the inner
`continue` after the `rec_texts`/`texts` keys is a no-op in the Python code, so
the `rec_text`/`text` fallback always runs for dict items). -/
def processItem (item : PyVal) (lines : List String) : Except String (List String) :=
  match item with
  | .none => .ok lines
  | .str s => .ok (if pyStrip s = "" then lines else lines ++ [pyStrip s])
  | .dict d =>
    let l2 := appendKeyList d "texts" (appendKeyList d "rec_texts" lines)
    match pyGetOr d with
    | .str s => .ok (if pyStrip s = "" then l2 else l2 ++ [pyStrip s])
    | _ => .ok l2
  | .list xs => processPair xs lines
  | .tuple xs => processPair xs lines
  | _ => .ok lines

/-- The whole `for item in result:` loop, threading `lines`. -/
def processItems : List PyVal → List String → Except String (List String)
  | [], lines => .ok lines
  | x :: rest, lines =>
    match processItem x lines with
    | .error e => .error e
    | .ok l => processItems rest l

/-- The top-level dict branch: try the keys `rec_texts`, `texts`, `text`,
`result` in order; a list value joins `str(x).strip()` of its non-blank
elements, a string value is stripped, anything else moves to the next key. -/
def extractFromDictKeys (d : List (String × PyVal)) : List String → String
  | [] => ""
  | k :: ks =>
    match dictGet d k with
    | some (.list xs) =>
      joinLines (xs.filterMap (fun x => if pyStrip (pyStr x) = "" then Option.none else some (pyStrip (pyStr x))))
    | some (.str s) => pyStrip s
    | _ => extractFromDictKeys d ks

/-- `OCREngine._extract_text`.  Python exceptions are modelled by the `Except`
error branch (only the guarded indexings `item[1]` / `second[0]` could raise). -/
def extractText : PyVal → Except String String
  | .none => .ok ""
  | .str s => .ok (pyStrip s)
  | .dict d => .ok (extractFromDictKeys d ["rec_texts", "texts", "text", "result"])
  | .list xs =>
    if xs.isEmpty then .ok ""
    else
      match processItems (match xs with | [PyVal.list inner] => inner | _ => xs) [] with
      | .error e => .error e
      | .ok lines => .ok (joinLines lines)
  | _ => .ok ""

/-! ## `OCREngine.recognize` (src/src/engine/ocr.py, lines 245-401) -/

/-- The image a recognition call sees: the original file at `image_path`, or
the RGB-converted, white-padded copy upscaled by `scale` that strategy 3 saves
to a temporary file. -/
inductive ImgVariant where
  | original
  | enhanced (scale : Nat)

/-- The third-party recognition back end (PaddleOCR) and the PIL image read,
as oracles.  `hasPredict` is Python `hasattr(self.ocr, "predict")`; `predict`
takes the image variant and the lenient flag; `legacy` is the old
`self.ocr.ocr(path)` API; `imgSize` is the `(width, height)` that
`PIL.Image.open(...).convert("RGB")` yields, or the exception it raises. -/
structure OcrEnv where
  hasPredict : Bool
  predict : ImgVariant → Bool → Except String PyVal
  legacy : ImgVariant → Except String PyVal
  imgSize : Except String (Nat × Nat)

/-- One recognition attempt followed by `_extract_text`: the inner `_predict`
helper (which falls back to the legacy API when `predict` is absent) composed
with the result-format normalizer. -/
def stratText (env : OcrEnv) (v : ImgVariant) (lenient : Bool) : Except String String :=
  match (if env.hasPredict then env.predict v lenient else env.legacy v) with
  | .error e => .error e
  | .ok raw => extractText raw

/-- The scales that strategy 3 tries, from the padded image size:
`pad = max(10, int(min(w, h) * 0.08))` (float truncation modelled as rational
floor), then `[2, 3]` below 700 px, `[2]` below 1100 px, nothing otherwise. -/
def scalesFor (w h : Nat) : List Nat :=
  let pad := max 10 (min w h * 8 / 100)
  let maxSide := max (w + 2 * pad) (h + 2 * pad)
  if maxSide < 700 then [2, 3] else if maxSide < 1100 then [2] else []

/-- The `for scale in scales:` loop of strategy 3.  An exception raised by any
call inside the loop is caught by the surrounding `except Exception: pass`,
which abandons the whole strategy (`none`). -/
def strategy3Loop (env : OcrEnv) : List Nat → Option String
  | [] => Option.none
  | s :: rest =>
    match stratText env (.enhanced s) true with
    | .error _ => Option.none
    | .ok t => if pyStrip t ≠ "" then some t else strategy3Loop env rest

/-- Strategy 3 (padded-and-upscaled recognition): open and pad the image, then
try each scale; every exception inside is swallowed.  `none` means the strategy
produced no text and `recognize` falls through to `return ""`. -/
def strategy3 (env : OcrEnv) : Option String :=
  match env.imgSize with
  | .error _ => Option.none
  | .ok (w, h) => if w = 0 ∨ h = 0 then Option.none else strategy3Loop env (scalesFor w h)

/-- The body of the outer `try:` of `recognize`: strategy 1 (standard, or the
legacy API), strategy 2 (lenient, only with the `predict` API), then
strategy 3; the first text whose `strip()` is non-empty is returned. -/
def recognizeCore (env : OcrEnv) : Except String String :=
  match stratText env .original false with
  | .error e => .error e
  | .ok t =>
    if pyStrip t ≠ "" then .ok t
    else if env.hasPredict then
      match stratText env .original true with
      | .error e => .error e
      | .ok t2 =>
        if pyStrip t2 ≠ "" then .ok t2
        else .ok ((strategy3 env).getD "")
    else .ok ((strategy3 env).getD "")

/-- `OCREngine.recognize`.  `engineReady` is `self.initialized` after the
initial `initialize()` attempt, `pathExists` is `os.path.exists(image_path)`;
an exception escaping strategies 1-2 is caught by the outer handler and turned
into `"OCR Error: " + str(e)`. -/
def recognize (env : OcrEnv) (engineReady pathExists : Bool) : String :=
  if !engineReady then "Error: PaddleOCR not initialized or not installed."
  else if !pathExists then ""
  else
    match recognizeCore env with
    | .ok t => t
    | .error e => "OCR Error: " ++ e

/-- First element of `ts` whose `strip()` is non-empty, else `""` — the value
`recognize` returns when every attempt in the given order succeeds. -/
def pyFirstNonblank : List String → String
  | [] => ""
  | t :: rest => if pyStrip t ≠ "" then t else pyFirstNonblank rest

/-! ## `LLMEngine` (src/src/engine/llm.py) -/

/-- The base64 alphabet used by `base64.b64encode`. -/
def b64Alphabet : List Char :=
  ("ABCDEFGHIJKLMNOPQRSTUVWXYZabcdefghijklmnopqrstuvwxyz0123456789+/").data

/-- Character of a 6-bit group. -/
def b64Char (n : Nat) : Char := b64Alphabet.getD n 'A'

/-- `base64.b64encode(bytes).decode("utf-8")` over a byte list (each byte is a
`Nat` below 256). -/
def base64Encode : List Nat → String
  | [] => ""
  | [a] => String.mk [b64Char (a / 4), b64Char (a % 4 * 16)] ++ "=="
  | [a, b] => String.mk [b64Char (a / 4), b64Char (a % 4 * 16 + b / 16), b64Char (b % 16 * 4)] ++ "="
  | a :: b :: c :: rest =>
    String.mk [b64Char (a / 4), b64Char (a % 4 * 16 + b / 16), b64Char (b % 16 * 4 + c / 64),
      b64Char (c % 64)] ++ base64Encode rest

/-- `LLMEngine.encode_image`: `None` when the file does not exist, otherwise
the base64 of its bytes.  `fb` is the filesystem oracle (`os.path.exists` +
`open(..., "rb").read()`). -/
def encode_image (fb : String → Option (List Nat)) (path : String) : Option String :=
  match fb path with
  | Option.none => Option.none
  | some bytes => some (base64Encode bytes)

/-- One part of the user message `content` array. -/
inductive ContentPart where
  | text (s : String)
  | imageUrl (url : String)
deriving DecidableEq

/-- A chat message as sent to the OpenAI-compatible API. -/
inductive Message where
  | system (s : String)
  | user (parts : List ContentPart)
deriving DecidableEq

/-- The system prompt built by `LLMEngine.translate` (f-string with the comic
context interpolated). -/
def systemPrompt (context : String) : String :=
  "You are an expert American comic translator and localization editor.\nContext about the comic: "
  ++ context ++
  "\n\nTask:\n- Translate the input English (often OCR text) into fluent Simplified Chinese suitable for comic speech balloons.\n\nRules:\n1. Prefer natural Chinese phrasing; do NOT translate word-for-word.\n2. Maintain the speaker\x27s tone, emotion, and rhythm.\n3. Proper nouns: prioritize official DC/Marvel Chinese names (heroes, villains, organizations, locations, aliases). If uncertain, keep the original English (or transliterate).\n4. OCR artifacts: treat line breaks and stray periods as layout markers, not sentence boundaries. Re-segment by meaning.\n5. Output formatting:\n   - Use standard Chinese punctuation（，。！？…）\n   - Do NOT put every short phrase on its own line.\n   - Only use line breaks to separate different speakers or different speech bubbles/paragraphs.\n   - Inside a paragraph, do NOT insert manual line breaks.\n   - If the text likely comes from multiple bubbles, merge into 1–2 coherent paragraphs when possible.\n6. Return ONLY the translated text. No explanations. Do NOT wrap the whole output in quotes.\n"

/-- Python truthiness of the `image_path` argument (`None` and `""` are falsy). -/
def imagePathTruthy : Option String → Bool
  | some p => p != ""
  | Option.none => false

/-- `LLMEngine.translate`.  Returns the message list handed to
`chat.completions.create` (`none` when the client is not configured and no
request is made) together with the returned string; `api` is the network
oracle and an exception it raises becomes `"API Error: " + str(e)`. -/
def llmTranslate (clientConfigured : Bool) (fb : String → Option (List Nat))
    (api : List Message → Except String String)
    (text context : String) (imagePath : Option String) (useVision : Bool) :
    Option (List Message) × String :=
  if !clientConfigured then (Option.none, "Error: API not configured. Please go to Settings.")
  else
    let userText :=
      if pyStrip text ≠ "" then [ContentPart.text ("Original Text:\n" ++ text)]
      else if useVision && imagePathTruthy imagePath then
        [ContentPart.text "Please read the English text in the image and translate it to Simplified Chinese."]
      else [ContentPart.text "Original Text:\n"]
    let userContent :=
      userText ++
      (if useVision && imagePathTruthy imagePath then
        match encode_image fb (imagePath.getD "") with
        | some b64 =>
          if b64 = "" then []
          else [ContentPart.imageUrl ("data:image/jpeg;base64," ++ b64)]
        | Option.none => []
      else [])
    let msgs := [Message.system (systemPrompt context), Message.user userContent]
    (some msgs,
      match api msgs with
      | .ok content => content
      | .error e => "API Error: " ++ e)

/-! ## `TranslationWorker.run` (src/src/ui/window.py, lines 95-162) -/

/-- Observable actions of the worker thread: status-signal emissions, the call
into the local OCR engine, the call into `llm_engine.translate`, and the two
result signals. -/
inductive Event where
  | status (s : String)
  | ocrCall (path : String)
  | llmCall (text : String) (imagePath : Option String) (useVision : Bool)
  | emitFinished (ocr trans : String)
  | emitError (msg : String)
deriving DecidableEq

/-- `TranslationWorker.run` as the sequence of events it performs.  `ocr` is
`ocr_engine.recognize` and `llm` is `llm_engine.translate(text, context,
image_path, use_vision)`; an `Except.error` from either models an exception,
which the try/except of the worker turns into an error-signal emission. -/
def runWorker (useVision : Bool) (imagePath context : String)
    (ocr : String → Except String String)
    (llm : String → String → Option String → Bool → Except String String) : List Event :=
  if useVision then
    Event.status "Vision 模式：跳过本地 OCR，直接翻译..." ::
    Event.llmCall "" (some imagePath) true ::
    (match llm "" context (some imagePath) true with
     | .ok t => [Event.emitFinished "Vision 模式：已跳过本地 OCR" t]
     | .error e => [Event.emitError e])
  else
    Event.status "Running OCR..." ::
    Event.ocrCall imagePath ::
    (match ocr imagePath with
     | .error e => [Event.emitError e]
     | .ok ocrText =>
       if pyStartsWith ocrText "OCR Error:" then [Event.emitError ocrText]
       else if pyStrip ocrText = "" then [Event.emitError "__OCR_NO_TEXT__"]
       else
         Event.status "Translating with LLM..." ::
         Event.llmCall ocrText (some imagePath) false ::
         (match llm ocrText context (some imagePath) false with
          | .ok t => [Event.emitFinished ocrText t]
          | .error e => [Event.emitError e]))

/-- Is this event one of the two result signals (`finished` or `error`)? -/
def isSignal : Event → Bool
  | .emitFinished _ _ => true
  | .emitError _ => true
  | _ => false

/-- Is this event the call into `llm_engine.translate`? -/
def isLlmCall : Event → Bool
  | .llmCall _ _ _ => true
  | _ => false

/-- Is this event the call into `ocr_engine.recognize`? -/
def isOcrCall : Event → Bool
  | .ocrCall _ => true
  | _ => false

/-! ## `ImageCanvas.mouseReleaseEvent` (src/src/ui/canvas.py, lines 287-335) -/

/-- A `QRectF`: position and extent in scene coordinates (Qt doubles modelled
as rationals). -/
structure RectF where
  x : ℚ
  y : ℚ
  w : ℚ
  h : ℚ
deriving DecidableEq

/-- `QRectF.isEmpty()`: width or height not positive. -/
def RectF.isEmpty (r : RectF) : Bool := r.w ≤ 0 || r.h ≤ 0

/-- `QRectF.isNull()`: width and height both zero. -/
def RectF.isNull (r : RectF) : Bool := r.w = 0 && r.h = 0

/-- `QRectF.intersected` for rectangles with non-negative extents: the null
rectangle when either operand is null or the overlap is empty, the overlap
otherwise. -/
def RectF.intersected (a b : RectF) : RectF :=
  if a.isNull || b.isNull then ⟨0, 0, 0, 0⟩
  else if min (a.x + a.w) (b.x + b.w) ≤ max a.x b.x ∨
      min (a.y + a.h) (b.y + b.h) ≤ max a.y b.y then ⟨0, 0, 0, 0⟩
  else ⟨max a.x b.x, max a.y b.y,
    min (a.x + a.w) (b.x + b.w) - max a.x b.x,
    min (a.y + a.h) (b.y + b.h) - max a.y b.y⟩

/-- Qt `qRound`: round half away from zero (`int(d + 0.5)` for non-negative
`d`, `int(d - 0.5)` otherwise, with `int` truncating toward zero). -/
def qRound (q : ℚ) : Int :=
  if 0 ≤ q then Int.floor (q + 1 / 2) else -Int.floor (1 / 2 - q)

/-- A `QRect` by its integer edges (left, top, right, bottom). -/
structure QRect where
  left : Int
  top : Int
  right : Int
  bottom : Int
deriving DecidableEq

/-- `QRectF.toRect()`: `QRect(QPoint(qRound(x), qRound(y)),
QPoint(qRound(x + w) - 1, qRound(y + h) - 1))`. -/
def RectF.toRect (r : RectF) : QRect :=
  ⟨qRound r.x, qRound r.y, qRound (r.x + r.w) - 1, qRound (r.y + r.h) - 1⟩

/-- The bounding rectangle of the pixmap item that `load_image` installs:
`QRectF(0, 0, W, H)` for a `W × H` pixmap. -/
def loadedImgRect (wpx hpx : Nat) : RectF := ⟨0, 0, (wpx : ℚ), (hpx : ℚ)⟩

/-- The left-button branch of `mouseReleaseEvent` while a selection is active.
`currentPixmap` is the loaded pixmap size (if any), `imgRect` the pixmap
bounding rectangle of the pixmap item and `sceneRect` the rubber-band geometry already
mapped to scene coordinates (`mapToScene(rect).boundingRect()`, delegated to
Qt).  The result is the argument of `region_selected.emit`: the sub-rectangle
of the current pixmap handed to `QPixmap.copy`, or `none` when no signal is
emitted. -/
def mouseReleaseCrop (currentPixmap : Option (Nat × Nat)) (imgRect sceneRect : RectF) :
    Option QRect :=
  if currentPixmap.isSome && !sceneRect.isEmpty then
    let intersection := sceneRect.intersected imgRect
    if !intersection.isEmpty then some intersection.toRect else Option.none
  else Option.none

/-! ## `MainWindow.on_translation_finished` (src/src/ui/window.py, lines 464-513) -/

/-- The quote characters that `on_translation_finished` treats as
quote-only-line markers. -/
def quoteChars : List Char :=
  ['"', Char.ofNat 39, '“', '”', '「', '」', '『', '』', '《', '》', '‹', '›', '«', '»']

/-- `is_quote_only(s)`: the stripped line is non-empty and consists of quote
characters only. -/
def isQuoteOnly (l : List Char) : Bool :=
  !(stripList l).isEmpty && (stripList l).all (fun c => quoteChars.contains c)

/-- The `enhanced_lines` loop: after every line that is followed by another
line, insert a blank line unless either neighbour is blank or quote-only. -/
def enhanceLines : List (List Char) → List (List Char)
  | [] => []
  | [l] => [l]
  | l :: nxt :: rest =>
    l ::
    ((if !(stripList l).isEmpty && !(stripList nxt).isEmpty
          && !isQuoteOnly (stripList l) && !isQuoteOnly (stripList nxt)
      then [[]] else []) ++ enhanceLines (nxt :: rest))

/-- Is the head character of the normalized text one of the two Python quote characters and equal
to the last character, with length at least 2 (the quote-unwrapping guard)? -/
def isQuoteWrapped (l : List Char) : Bool :=
  2 ≤ l.length && l.head? = l.getLast? &&
    (match l.head? with
     | some c => c = Char.ofNat 39 || c = '"'
     | Option.none => false)

/-- The translation-pane normalization performed by `on_translation_finished`:
newline canonicalization, unescaping of literal `\r\n` / `\n` sequences,
unwrapping of a single pair of surrounding quotes, and blank-line insertion
between adjacent non-blank, non-quote-only lines. -/
def normalizeTrans (t : String) : String :=
  let l1 := replaceAux ('\r' :: ['\n']) ['\n'] t.data.length t.data
  let l2 := replaceAux ['\r'] ['\n'] l1.length l1
  let l3 := replaceAux ('\\' :: 'r' :: '\\' :: ['n']) ['\n'] l2.length l2
  let l4 := replaceAux ('\\' :: ['n']) ['\n'] l3.length l3
  let l5 := if isQuoteWrapped l4 then (l4.drop 1).dropLast else l4
  let lines := pySplitLines l5
  if 1 < lines.length then String.mk (joinNL (enhanceLines lines)) else String.mk l5

/-- `MainWindow.on_translation_finished(ocr_text, trans_text)`: the contents
written into the OCR pane and the translation pane (`setText` calls). -/
def onTranslationFinished (ocrText transText : String) : String × String :=
  (ocrText, normalizeTrans transText)

/-! ## `utils/config.py`: `load_config` / `save_config` -/

/-- A JSON value as stored in `config.json`. -/
inductive JVal where
  | null
  | bool (b : Bool)
  | num (n : Int)
  | str (s : String)
  | arr (xs : List JVal)
  | obj (entries : List (String × JVal))

/-- The state of `config.json` on disk: `none` when the file does not exist,
`some none` when it exists but cannot be read or parsed as JSON, and
`some (some v)` when it parses to `v` (the JSON codec itself is the `json`
standard library, modelled as exact). -/
def ConfigFS : Type := Option (Option JVal)

/-- Lookup in a JSON object (first entry wins, as in a Python dict, whose keys
are unique). -/
def jLookup : List (String × JVal) → String → Option JVal
  | [], _ => Option.none
  | (k0, v) :: rest, k => if k0 == k then some v else jLookup rest k

/-- Python `dict.update`: existing keys keep their position and take the new
value, fresh keys of `data` are appended. -/
def jUpdate (cur data : List (String × JVal)) : List (String × JVal) :=
  cur.map (fun p => (p.1, (jLookup data p.1).getD p.2)) ++
    data.filter (fun p => (jLookup cur p.1).isNone)

/-- `load_config()`: `{}` when the file is missing, unreadable or invalid,
otherwise the parsed JSON content. -/
def load_config : ConfigFS → JVal
  | Option.none => .obj []
  | some Option.none => .obj []
  | some (some v) => v

/-- `save_config(data)`: load the current config, merge `data` into it with
`update()`, write the result back.  `writeOk` models whether
`open(..., "w")` / `json.dump` succeed; a loaded value that is not a dict
makes `update()` raise, which the handler turns into `False`.  Returns the
Python return value and the new file state. -/
def save_config (data : List (String × JVal)) (writeOk : Bool) (fs : ConfigFS) :
    Bool × ConfigFS :=
  match load_config fs with
  | .obj cur => if writeOk then (true, some (some (.obj (jUpdate cur data)))) else (false, fs)
  | _ => (false, fs)

/-! ## `SettingsDialog` successful-model history (src/src/ui/settings.py, lines 146-207) -/

/-- The cleaning loop of `_load_successful_models`: keep the stripped,
non-blank string items that were not seen before. -/
def cleanModels : List JVal → List String → List String
  | [], _ => []
  | x :: rest, seen =>
    match x with
    | .str s =>
      if pyStrip s = "" ∨ pyStrip s ∈ seen then cleanModels rest seen
      else pyStrip s :: cleanModels rest (pyStrip s :: seen)
    | _ => cleanModels rest seen

/-- `SettingsDialog._load_successful_models`: read `successful_models` from the
config (defaulting to `[]`), return `[]` when it is not a list, otherwise the
cleaned list.  A non-dict top-level config makes `config.get` raise
(`Except.error`). -/
def loadSuccessfulModels (fs : ConfigFS) : Except String (List String) :=
  match load_config fs with
  | .obj d =>
    match (jLookup d "successful_models").getD (.arr []) with
    | .arr xs => .ok (cleanModels xs [])
    | _ => .ok []
  | _ => .error "AttributeError"

/-- `SettingsDialog._save_successful_model(model)`: strip the name; do nothing
when blank; otherwise remove it from the loaded history, insert it at the
front, keep the first 30 entries and persist them under `successful_models`
(the widget update is UI-only and not modelled).  Returns the new file
state. -/
def saveSuccessfulModel (model : String) (writeOk : Bool) (fs : ConfigFS) :
    Except String ConfigFS :=
  if pyStrip model = "" then .ok fs
  else
    match loadSuccessfulModels fs with
    | .error e => .error e
    | .ok models =>
      let kept := models.filter (fun x => x != pyStrip model)
      let lst := (pyStrip model :: kept).take 30
      .ok (save_config [("successful_models", .arr (lst.map JVal.str))] writeOk fs).2

/-- The `successful_models` value currently stored in the configuration. -/
def storedModels (fs : ConfigFS) : Option JVal :=
  match load_config fs with
  | .obj d => jLookup d "successful_models"
  | _ => Option.none

/-- Lookup of a key in the configuration currently stored on disk. -/
def configLookup (fs : ConfigFS) (k : String) : Option JVal :=
  match load_config fs with
  | .obj d => jLookup d k
  | _ => Option.none

/-- A concrete OCR environment for the strategy-3 exception counterexample:
the standard and lenient attempts succeed with an empty result list, the
enhanced-image attempt raises, and the 100 x 100 image gets scales `[2, 3]`. -/
def cexOcrEnv : OcrEnv where
  hasPredict := true
  predict := fun v _ =>
    match v with
    | .original => .ok (.list [])
    | .enhanced _ => .error "boom"
  legacy := fun _ => .ok .none
  imgSize := .ok (100, 100)

/-- A concrete OCR environment witnessing the retry order: the standard
attempt finds nothing, the lenient attempt reads the text. -/
def witOcrEnv : OcrEnv where
  hasPredict := true
  predict := fun v lenient =>
    match v, lenient with
    | .original, false => .ok (.list [])
    | .original, true => .ok (.str "HI THERE")
    | .enhanced _, _ => .ok (.list [])
  legacy := fun _ => .ok .none
  imgSize := .ok (100, 100)

/-- A one-file filesystem used to witness the Vision-mode claim: `crop.png`
contains the three bytes of `"Man"`. -/
def fbWitness : String → Option (List Nat) :=
  fun p => if p = "crop.png" then some [77, 97, 110] else Option.none

/-- What claim C1 asserts of a Vision-mode run whose crop file holds `bytes`:
no OCR call, a `translate("", ..., path, True)` call, and a user message made
of the fixed vision prompt plus the base64 data URL of the image. -/
def visionRunProp (path ctx : String) (ocr : String → Except String String)
    (llm : String → String → Option String → Bool → Except String String)
    (fb : String → Option (List Nat)) (api : List Message → Except String String)
    (bytes : List Nat) : Prop :=
  (runWorker true path ctx ocr llm).countP isOcrCall = 0 ∧
  Event.llmCall "" (some path) true ∈ runWorker true path ctx ocr llm ∧
  (llmTranslate true fb api "" ctx (some path) true).1 =
    some [Message.system (systemPrompt ctx),
      Message.user [ContentPart.text
          "Please read the English text in the image and translate it to Simplified Chinese.",
        ContentPart.imageUrl ("data:image/jpeg;base64," ++ base64Encode bytes)]]

/-- What the amended claim C2 asserts of a non-Vision run whose OCR call
returns `ocrText`: OCR runs, the LLM is called exactly when the stripped text
is non-empty and is not an `"OCR Error:"` string, and the two error cases emit
the corresponding error signals. -/
def workerGateProp (path ctx ocrText : String) (ocr : String → Except String String)
    (llm : String → String → Option String → Bool → Except String String) : Prop :=
  Event.ocrCall path ∈ runWorker false path ctx ocr llm ∧
  (runWorker false path ctx ocr llm).countP isLlmCall =
    (if pyStrip ocrText ≠ "" ∧ pyStartsWith ocrText "OCR Error:" = false then 1 else 0) ∧
  (pyStartsWith ocrText "OCR Error:" = true →
    Event.emitError ocrText ∈ runWorker false path ctx ocr llm) ∧
  (pyStrip ocrText = "" →
    Event.emitError "__OCR_NO_TEXT__" ∈ runWorker false path ctx ocr llm) ∧
  (pyStrip ocrText ≠ "" → pyStartsWith ocrText "OCR Error:" = false →
    Event.llmCall ocrText (some path) false ∈ runWorker false path ctx ocr llm)

/-- What the amended claim C3 asserts of `recognize` on an initialized engine
and existing path (with the `predict` API and a readable `w x h` image):
errors of strategies 1-2 become `"OCR Error: ..."`, otherwise the first
strategy with non-blank stripped text wins, all-blank yields `""`, and an
exception during the enhancement strategy is swallowed into `""`. -/
def recognizeRetryProp (env : OcrEnv) (w h : Nat) (u : Nat → String) : Prop :=
  (∀ e, stratText env .original false = .error e →
    recognize env true true = "OCR Error: " ++ e) ∧
  (∀ t, stratText env .original false = .ok t → pyStrip t ≠ "" →
    recognize env true true = t) ∧
  (∀ t e, stratText env .original false = .ok t → pyStrip t = "" →
    stratText env .original true = .error e →
    recognize env true true = "OCR Error: " ++ e) ∧
  (∀ t t2, stratText env .original false = .ok t → pyStrip t = "" →
    stratText env .original true = .ok t2 → pyStrip t2 ≠ "" →
    recognize env true true = t2) ∧
  (∀ t t2, stratText env .original false = .ok t → pyStrip t = "" →
    stratText env .original true = .ok t2 → pyStrip t2 = "" →
    (∀ sc ∈ scalesFor w h, stratText env (.enhanced sc) true = .ok (u sc)) →
    recognize env true true = pyFirstNonblank ((scalesFor w h).map u)) ∧
  (∀ t t2 s0 l2 e, stratText env .original false = .ok t → pyStrip t = "" →
    stratText env .original true = .ok t2 → pyStrip t2 = "" →
    scalesFor w h = s0 :: l2 → stratText env (.enhanced s0) true = .error e →
    recognize env true true = "")

/-- What claim C6 asserts of a release of the left mouse button during
selection: no signal without a loaded pixmap; with one, a signal is emitted
exactly when neither the mapped selection nor its intersection with the image
rectangle is empty, and the emitted crop is that intersection, an integer
sub-rectangle of the image. -/
def cropProp (wpx hpx : Nat) (sceneRect : RectF) : Prop :=
  mouseReleaseCrop Option.none (loadedImgRect wpx hpx) sceneRect = Option.none ∧
  (mouseReleaseCrop (some (wpx, hpx)) (loadedImgRect wpx hpx) sceneRect = Option.none ↔
    sceneRect.isEmpty = true ∨
      (sceneRect.intersected (loadedImgRect wpx hpx)).isEmpty = true) ∧
  (∀ r, mouseReleaseCrop (some (wpx, hpx)) (loadedImgRect wpx hpx) sceneRect = some r →
    r = (sceneRect.intersected (loadedImgRect wpx hpx)).toRect ∧
    0 ≤ r.left ∧ 0 ≤ r.top ∧ r.right ≤ (wpx : Int) - 1 ∧ r.bottom ≤ (hpx : Int) - 1)

/-- What claim C8 asserts of `save_config(data)` over a prior configuration
`cur`: success returns `True` and stores a configuration that maps keys of
`data` to the new values and all other keys to their previous values; a
failing write returns `False` and leaves the file alone. -/
def saveMergeProp (data : List (String × JVal)) (fs : ConfigFS)
    (cur : List (String × JVal)) : Prop :=
  (save_config data true fs).1 = true ∧
  (∀ k, configLookup (save_config data true fs).2 k =
    ((jLookup data k).or (jLookup cur k))) ∧
  save_config data false fs = (false, fs)

/-- What claim C10 asserts of `_save_successful_model(model)`: a blank name
leaves the file untouched; a non-blank name stores a duplicate-free list of at
most 30 entries headed by the stripped name. -/
def mruProp (model : String) (fs : ConfigFS) : Prop :=
  (pyStrip model = "" → saveSuccessfulModel model true fs = .ok fs) ∧
  (pyStrip model ≠ "" →
    ∃ l : List String, ∃ fs2 : ConfigFS,
      saveSuccessfulModel model true fs = .ok fs2 ∧
      storedModels fs2 = some (.arr (l.map JVal.str)) ∧
      l.head? = some (pyStrip model) ∧ l.Nodup ∧ l.length ≤ 30)

/-! ## Helper lemmas -/

/-- Rebuilding a string from its characters is the identity. -/
theorem string_mk_data (s : String) : String.mk s.data = s := rfl

/-- A character of `l` that is not whitespace survives `strip`. -/
theorem stripList_ne_nil_of_mem (l : List Char) (c : Char) (hc : c ∈ l)
    (hw : isPyWs c = false) : stripList l ≠ [] := by
  intro hnil
  unfold stripList at hnil
  rw [List.reverse_eq_nil_iff, List.dropWhile_eq_nil_iff] at hnil
  have hsplit : c ∈ l.takeWhile isPyWs ++ l.dropWhile isPyWs := by
    rw [List.takeWhile_append_dropWhile]; exact hc
  rcases List.mem_append.mp hsplit with h | h
  · exact absurd (List.mem_takeWhile_imp h) (by simp [hw])
  · have hcl : c ∈ (l.dropWhile isPyWs).reverse := List.mem_reverse.mpr h
    simp [hnil c hcl] at hw

/-- A string whose strip is empty consists of whitespace only, so it cannot
start with `"OCR Error:"`. -/
theorem startsWith_ocr_error_strip_ne (s : String)
    (h : pyStartsWith s "OCR Error:" = true) : pyStrip s ≠ "" := by
  unfold pyStartsWith at h
  rw [List.isPrefixOf_iff_prefix] at h
  rcases h with ⟨t, ht⟩
  intro hs
  unfold pyStrip at hs
  have hnil : stripList s.data = [] := by
    have := congrArg String.data hs
    simpa using this
  exact stripList_ne_nil_of_mem s.data 'O'
    (by rw [← ht]; exact List.mem_append_left _ (by decide)) (by decide) hnil

/-- `str.replace` leaves a string alone when the first character of the pattern
does not occur in it. -/
theorem replaceAux_id (old new : List Char) (c0 : Char) (hold : old.head? = some c0) :
    ∀ fuel l, c0 ∉ l → replaceAux old new fuel l = l := by
  intro fuel
  induction fuel with
  | zero => intro l _; cases l <;> rfl
  | succ n ih =>
    intro l hl
    cases l with
    | nil => rfl
    | cons c rest =>
      have hne : old.isPrefixOf (c :: rest) = false := by
        cases old with
        | nil => simp at hold
        | cons o os =>
          have ho : o = c0 := by simpa using hold
          subst ho
          have hoc : (o == c) = false :=
            beq_eq_false_iff_ne.mpr (fun h => hl (by rw [h]; exact List.mem_cons_self _ _))
          simp [List.isPrefixOf, hoc]
      simp only [replaceAux, hne, Bool.and_false, Bool.false_eq_true, if_false]
      exact congrArg (c :: ·) (ih rest (fun hm => hl (List.mem_cons_of_mem _ hm)))

/-- `split("\n")` of a string without newlines is the single-element list. -/
theorem pySplitLines_no_nl (l : List Char) (h : '\n' ∉ l) : pySplitLines l = [l] := by
  induction l with
  | nil => rfl
  | cons c rest ih =>
    have hc : ¬ c = '\n' := fun hc => h (hc ▸ List.mem_cons_self _ _)
    rw [pySplitLines]
    simp only [hc, if_false]
    rw [ih (fun hm => h (List.mem_cons_of_mem _ hm))]

/-- The base64 encoding of a non-empty byte list is a non-empty string. -/
theorem base64Encode_cons_ne_empty (a : Nat) (rest : List Nat) :
    base64Encode (a :: rest) ≠ "" := by
  rcases rest with _ | ⟨b, rest2⟩
  · intro h
    have := congrArg String.data h
    simp [base64Encode, String.data_append] at this
  · rcases rest2 with _ | ⟨c, rest3⟩
    · intro h
      have := congrArg String.data h
      simp [base64Encode, String.data_append] at this
    · intro h
      have := congrArg String.data h
      simp [base64Encode, String.data_append] at this

/-! ## Claim C5: exactly one result signal per worker run -/

/-- C5: every execution of `TranslationWorker.run` emits exactly one of the
`finished` and `error` signals — never both and never neither — for every
Vision setting, input path, context and behaviour (including exceptions) of
the OCR and LLM engines. -/
theorem worker_exactly_one_signal (uv : Bool) (path ctx : String)
    (ocr : String → Except String String)
    (llm : String → String → Option String → Bool → Except String String) :
    (runWorker uv path ctx ocr llm).countP isSignal = 1 := by
  unfold runWorker
  cases uv with
  | true =>
    cases h : llm "" ctx (some path) true with
    | ok t => simp [h, isSignal, List.countP_cons, List.countP_nil]
    | error e => simp [h, isSignal, List.countP_cons, List.countP_nil]
  | false =>
    cases h : ocr path with
    | error e => simp [h, isSignal, List.countP_cons, List.countP_nil]
    | ok t =>
      by_cases h1 : pyStartsWith t "OCR Error:" = true
      · simp [h, h1, isSignal, List.countP_cons, List.countP_nil]
      · by_cases h2 : pyStrip t = ""
        · simp [h, h1, h2, isSignal, List.countP_cons, List.countP_nil]
        · cases h3 : llm t ctx (some path) false with
          | ok t2 => simp [h, h1, h2, h3, isSignal, List.countP_cons, List.countP_nil]
          | error e2 => simp [h, h1, h2, h3, isSignal, List.countP_cons, List.countP_nil]

/-! ## Claim C2: the OCR gate before the LLM call -/

/-- C2 counterexample: when OCR yields the string `"OCR Error: boom"`, its
stripped form is non-empty, yet the worker makes no LLM call and emits the
error signal instead — refuting the claimed "sent to the LLM if and only if
the OCR result is non-empty after stripping whitespace". -/
theorem worker_llm_iff_counterexample :
    pyStrip "OCR Error: boom" ≠ "" ∧
    (runWorker false "a.png" "" (fun _ => Except.ok "OCR Error: boom")
      (fun _ _ _ _ => Except.ok "x")).countP isLlmCall = 0 ∧
    Event.emitError "OCR Error: boom" ∈
      runWorker false "a.png" "" (fun _ => Except.ok "OCR Error: boom")
        (fun _ _ _ _ => Except.ok "x") := by
  decide

/-- C2 (amended): with Vision disabled the worker runs OCR on the crop first,
and the recognized text is sent to the LLM if and only if it is non-empty
after stripping AND does not start with `"OCR Error:"`; an empty result emits
`"__OCR_NO_TEXT__"` on the error signal with no LLM call, and an
`"OCR Error:"` result emits that string on the error signal with no LLM
call. -/
theorem worker_ocr_gate_amended (path ctx ocrText : String)
    (ocr : String → Except String String)
    (llm : String → String → Option String → Bool → Except String String)
    (h : ocr path = Except.ok ocrText) :
    workerGateProp path ctx ocrText ocr llm := by
  unfold workerGateProp
  by_cases h1 : pyStartsWith ocrText "OCR Error:" = true
  · have hne := startsWith_ocr_error_strip_ne ocrText h1
    refine ⟨?_, ?_, ?_, ?_, ?_⟩ <;>
      simp [runWorker, h, h1, hne, isLlmCall, List.countP_cons, List.countP_nil]
  · by_cases h2 : pyStrip ocrText = ""
    · refine ⟨?_, ?_, ?_, ?_, ?_⟩ <;>
        simp [runWorker, h, h1, h2, isLlmCall, List.countP_cons, List.countP_nil]
    · cases h3 : llm ocrText ctx (some path) false with
      | ok t2 =>
        refine ⟨?_, ?_, ?_, ?_, ?_⟩ <;>
          simp [runWorker, h, h1, h2, h3, isLlmCall, List.countP_cons, List.countP_nil]
      | error e2 =>
        refine ⟨?_, ?_, ?_, ?_, ?_⟩ <;>
          simp [runWorker, h, h1, h2, h3, isLlmCall, List.countP_cons, List.countP_nil]

/-- Witness for the amended C2 at a concrete run whose OCR result is
`"HELLO"`. -/
theorem worker_ocr_gate_amended_witness :
    ((fun _ : String => Except.ok (ε := String) "HELLO") "b.png" = Except.ok "HELLO") ∧
    workerGateProp "b.png" "" "HELLO" (fun _ => Except.ok "HELLO")
      (fun _ _ _ _ => Except.ok "好") :=
  ⟨rfl, worker_ocr_gate_amended "b.png" "" "HELLO" (fun _ => Except.ok "HELLO")
    (fun _ _ _ _ => Except.ok "好") rfl⟩

/-! ## Claim C1: Vision mode sends the raw image -/

/-- C1: a worker run with Vision enabled never calls the local OCR engine and
calls `llm_engine.translate` with empty text, the crop path and
`use_vision=True`; and that `translate` call sends a user message consisting
of the fixed vision prompt and the base64 data URL of the image bytes instead
of OCR text. -/
theorem vision_mode_uses_raw_image (path ctx : String)
    (ocr : String → Except String String)
    (llm : String → String → Option String → Bool → Except String String)
    (fb : String → Option (List Nat)) (api : List Message → Except String String)
    (bytes : List Nat) (hpath : path ≠ "") (hfb : fb path = some bytes)
    (hbytes : bytes ≠ []) :
    visionRunProp path ctx ocr llm fb api bytes := by
  unfold visionRunProp
  refine ⟨?_, ?_, ?_⟩
  · cases h : llm "" ctx (some path) true <;>
      simp [runWorker, h, isOcrCall, List.countP_cons, List.countP_nil]
  · cases h : llm "" ctx (some path) true <;> simp [runWorker, h]
  · have hp : (path == "") = false := beq_eq_false_iff_ne.mpr hpath
    have hstrip : pyStrip "" = "" := rfl
    have hb64 : base64Encode bytes ≠ "" := by
      cases bytes with
      | nil => exact absurd rfl hbytes
      | cons a rest => exact base64Encode_cons_ne_empty a rest
    simp [llmTranslate, imagePathTruthy, hp, hstrip, encode_image, hfb, hpath, hb64]

/-- Witness for C1: a Vision-mode run over a one-file filesystem whose crop
holds the bytes of `"Man"` (base64 `TWFu`). -/
theorem vision_mode_uses_raw_image_witness :
    ("crop.png" ≠ "" ∧ fbWitness "crop.png" = some [77, 97, 110] ∧
      [77, 97, 110] ≠ ([] : List Nat)) ∧
    visionRunProp "crop.png" "ctx" (fun _ => Except.ok "")
      (fun _ _ _ _ => Except.ok "译文") fbWitness (fun _ => Except.ok "译文")
      [77, 97, 110] :=
  ⟨⟨by decide, by decide, by decide⟩,
    vision_mode_uses_raw_image "crop.png" "ctx" (fun _ => Except.ok "")
      (fun _ _ _ _ => Except.ok "译文") fbWitness (fun _ => Except.ok "译文")
      [77, 97, 110] (by decide) (by decide) (by decide)⟩

/-! ## Claim C4: `_extract_text` is total -/

/-- The guarded `second[0]` access never raises. -/
theorem processInner_ok (ys : List PyVal) (lines : List String) :
    ∃ l, processInner ys lines = .ok l := by
  cases ys with
  | nil => exact ⟨lines, rfl⟩
  | cons y t =>
    rcases y with _ | b | n | s | xs | xs | d
    case str =>
      by_cases hs : pyStrip s = ""
      · exact ⟨lines, by simp [processInner, pyIndex, hs]⟩
      · exact ⟨lines ++ [pyStrip s], by simp [processInner, pyIndex, hs]⟩
    all_goals exact ⟨lines, by simp [processInner, pyIndex]⟩

/-- The guarded `item[1]` access never raises. -/
theorem processPair_ok (xs : List PyVal) (lines : List String) :
    ∃ l, processPair xs lines = .ok l := by
  cases xs with
  | nil => exact ⟨lines, rfl⟩
  | cons a t =>
    cases t with
    | nil => exact ⟨lines, by simp [processPair]⟩
    | cons b t2 =>
      have hidx : pyIndex (a :: b :: t2) 1 = .ok b := by simp [pyIndex]
      rcases b with _ | bb | n | s | ys | ys | d
      case list =>
        obtain ⟨l, hl⟩ := processInner_ok ys lines
        exact ⟨l, by simp [processPair, hidx, hl]⟩
      case tuple =>
        obtain ⟨l, hl⟩ := processInner_ok ys lines
        exact ⟨l, by simp [processPair, hidx, hl]⟩
      all_goals exact ⟨lines, by simp [processPair, hidx]⟩

/-- One loop iteration of `_extract_text` never raises. -/
theorem processItem_ok (item : PyVal) (lines : List String) :
    ∃ l, processItem item lines = .ok l := by
  rcases item with _ | b | n | s | xs | xs | d
  case str =>
    by_cases hs : pyStrip s = ""
    · exact ⟨lines, by simp [processItem, hs]⟩
    · exact ⟨lines ++ [pyStrip s], by simp [processItem, hs]⟩
  case list => exact processPair_ok xs lines
  case tuple => exact processPair_ok xs lines
  case dict =>
    rcases hg : pyGetOr d with _ | b | n | s | xs | xs | d2
    case str =>
      by_cases hs : pyStrip s = ""
      · exact ⟨appendKeyList d "texts" (appendKeyList d "rec_texts" lines),
          by simp [processItem, hg, hs]⟩
      · exact ⟨appendKeyList d "texts" (appendKeyList d "rec_texts" lines) ++ [pyStrip s],
          by simp [processItem, hg, hs]⟩
    all_goals exact ⟨appendKeyList d "texts" (appendKeyList d "rec_texts" lines),
      by simp [processItem, hg]⟩
  all_goals exact ⟨lines, rfl⟩

/-- The whole loop of `_extract_text` never raises. -/
theorem processItems_ok (xs : List PyVal) : ∀ lines, ∃ l, processItems xs lines = .ok l := by
  induction xs with
  | nil => intro lines; exact ⟨lines, rfl⟩
  | cons x rest ih =>
    intro lines
    obtain ⟨l1, h1⟩ := processItem_ok x lines
    obtain ⟨l2, h2⟩ := ih l1
    exact ⟨l2, by simp [processItems, h1, h2]⟩

/-- C4: `OCREngine._extract_text` is total and format-defensive: on every
value of the modelled shapes — `None`, strings, dicts, (nested) lists and
tuples mixing strings, dicts, `None` and old-style pairs, or any other
value — it returns a string and never raises. -/
theorem extract_text_total (v : PyVal) : ∃ s, extractText v = .ok s := by
  rcases v with _ | b | n | s | xs | xs | d
  case list =>
    obtain ⟨l, hl⟩ := processItems_ok (match xs with | [PyVal.list inner] => inner | _ => xs) []
    by_cases he : xs.isEmpty
    · exact ⟨"", by simp [extractText, he]⟩
    · refine ⟨joinLines l, ?_⟩
      simp only [extractText, he, if_false, Bool.false_eq_true]
      rw [hl]
  all_goals exact ⟨_, rfl⟩

/-! ## Claim C3: the `recognize` retry wrapper -/

/-- When every strategy-3 attempt succeeds, the loop returns the first
non-blank text of the scale sequence. -/
theorem strategy3Loop_all_ok (env : OcrEnv) (u : Nat → String) :
    ∀ scales : List Nat, (∀ sc ∈ scales, stratText env (.enhanced sc) true = .ok (u sc)) →
    (strategy3Loop env scales).getD "" = pyFirstNonblank (scales.map u) := by
  intro scales
  induction scales with
  | nil => intro _; rfl
  | cons sc rest ih =>
    intro hall
    have h0 : stratText env (.enhanced sc) true = .ok (u sc) :=
      hall sc (List.mem_cons_self _ _)
    by_cases hsb : pyStrip (u sc) = ""
    · simp only [strategy3Loop, h0, List.map_cons, pyFirstNonblank, hsb]
      simpa using ih (fun s hs => hall s (List.mem_cons_of_mem _ hs))
    · simp [strategy3Loop, h0, hsb, pyFirstNonblank]

/-- C3 counterexample: on an initialized engine with an existing path, when
the standard and lenient strategies find no text and the recognizer raises
during the padded-and-upscaled strategy, `recognize` swallows the exception
and returns `""` — not a string beginning with `"OCR Error:"` as claimed. -/
theorem recognize_retry_counterexample :
    cexOcrEnv.predict (.enhanced 2) true = .error "boom" ∧
    recognize cexOcrEnv true true = "" ∧
    pyStartsWith (recognize cexOcrEnv true true) "OCR Error:" = false := by
  refine ⟨rfl, ?_, ?_⟩ <;> decide

/-- C3 (amended): on an initialized engine with an existing image path and
the `predict` API, `recognize` applies standard recognition, then lenient
recognition, then padded-and-upscaled recognition at the computed scales, and
returns the first text whose strip is non-empty (the empty string when all
attempts are blank); an exception raised during the standard or lenient
strategies is returned as `"OCR Error: " + str(e)`, while an exception during
the padded-and-upscaled strategy is swallowed and yields `""`. -/
theorem recognize_retry_amended (env : OcrEnv) (w h : Nat) (u : Nat → String)
    (hp : env.hasPredict = true) (hs : env.imgSize = Except.ok (w, h))
    (hw : w ≠ 0) (hh : h ≠ 0) :
    recognizeRetryProp env w h u := by
  have hstrat3 : strategy3 env = strategy3Loop env (scalesFor w h) := by
    simp [strategy3, hs, hw, hh]
  unfold recognizeRetryProp
  refine ⟨?_, ?_, ?_, ?_, ?_, ?_⟩
  · intro e he
    simp [recognize, recognizeCore, he]
  · intro t ht hne
    simp [recognize, recognizeCore, ht, hne]
  · intro t e ht hblank he2
    simp [recognize, recognizeCore, ht, hblank, hp, he2]
  · intro t t2 ht hblank ht2 hne2
    simp [recognize, recognizeCore, ht, hblank, hp, ht2, hne2]
  · intro t t2 ht hblank ht2 hblank2 hall
    have hloop := strategy3Loop_all_ok env u (scalesFor w h) hall
    simp [recognize, recognizeCore, ht, hblank, hp, ht2, hblank2, hstrat3, hloop]
  · intro t t2 s0 l2 e ht hblank ht2 hblank2 hsc he
    simp [recognize, recognizeCore, ht, hblank, hp, ht2, hblank2, hstrat3, hsc,
      strategy3Loop, he]

/-- Witness for the amended C3: the lenient pass reads the text the standard
pass missed. -/
theorem recognize_retry_amended_witness :
    (witOcrEnv.hasPredict = true ∧ witOcrEnv.imgSize = Except.ok (100, 100) ∧
      recognize witOcrEnv true true = "HI THERE") ∧
    recognizeRetryProp witOcrEnv 100 100 (fun _ => "") :=
  ⟨⟨rfl, rfl, by decide⟩,
    recognize_retry_amended witOcrEnv 100 100 (fun _ => "") rfl rfl
      (by decide) (by decide)⟩

/-! ## Claim C7: the two result panes -/

/-- C7 counterexample: `on_translation_finished` does not write `trans_text`
verbatim into the translation pane — a two-line translation gains an inserted
blank line. -/
theorem panes_counterexample :
    (onTranslationFinished "x" "a\nb").2 = "a\n\nb" ∧
    (onTranslationFinished "x" "a\nb").2 ≠ "a\nb" := by
  refine ⟨?_, ?_⟩ <;> decide

/-- C7 (amended): the handler writes `ocr_text` into the OCR pane verbatim,
and writes `trans_text` into the translation pane after the normalization
pipeline (newline canonicalization, unescaping, quote unwrapping, blank-line
insertion); in particular the translation pane receives `trans_text` verbatim
whenever it is a single line without carriage returns, backslashes or a
surrounding quote pair. -/
theorem panes_amended (ocrText transText : String)
    (h1 : '\r' ∉ transText.data) (h2 : '\\' ∉ transText.data)
    (h3 : '\n' ∉ transText.data) (h4 : isQuoteWrapped transText.data = false) :
    (onTranslationFinished ocrText transText).1 = ocrText ∧
    (onTranslationFinished ocrText transText).2 = transText := by
  refine ⟨rfl, ?_⟩
  have hsnd : (onTranslationFinished ocrText transText).2 = normalizeTrans transText := rfl
  rw [hsnd]
  have e1 : replaceAux ('\r' :: ['\n']) ['\n'] transText.data.length transText.data
      = transText.data := replaceAux_id ('\r' :: ['\n']) ['\n'] '\r' rfl _ _ h1
  have e2 : replaceAux ['\r'] ['\n'] transText.data.length transText.data
      = transText.data := replaceAux_id ['\r'] ['\n'] '\r' rfl _ _ h1
  have e3 : replaceAux ('\\' :: 'r' :: '\\' :: ['n']) ['\n'] transText.data.length
      transText.data = transText.data :=
    replaceAux_id ('\\' :: 'r' :: '\\' :: ['n']) ['\n'] '\\' rfl _ _ h2
  have e4 : replaceAux ('\\' :: ['n']) ['\n'] transText.data.length transText.data
      = transText.data := replaceAux_id ('\\' :: ['n']) ['\n'] '\\' rfl _ _ h2
  have e5 : pySplitLines transText.data = [transText.data] := pySplitLines_no_nl _ h3
  simp only [normalizeTrans, e1, e2, e3, e4, h4, Bool.false_eq_true, if_false, e5,
    List.length_singleton, lt_self_iff_false, string_mk_data]

/-- Witness for the amended C7 on a clean single-line translation. -/
theorem panes_amended_witness :
    ('\r' ∉ "hello".data ∧ '\\' ∉ "hello".data ∧ '\n' ∉ "hello".data ∧
      isQuoteWrapped "hello".data = false) ∧
    (onTranslationFinished "ocr" "hello").1 = "ocr" ∧
    (onTranslationFinished "ocr" "hello").2 = "hello" :=
  ⟨⟨by decide, by decide, by decide, by decide⟩,
    panes_amended "ocr" "hello" (by decide) (by decide) (by decide) (by decide)⟩

/-! ## Claim C6: crops are sub-regions of the loaded image -/

/-- `qRound` of a non-negative value is non-negative. -/
theorem qRound_nonneg (q : ℚ) (h : 0 ≤ q) : 0 ≤ qRound q := by
  unfold qRound
  rw [if_pos h]
  exact Int.le_floor.mpr (by push_cast; linarith)

/-- `qRound` does not overshoot an integer upper bound. -/
theorem qRound_le_int (q : ℚ) (n : Int) (h0 : 0 ≤ q) (h : q ≤ (n : ℚ)) : qRound q ≤ n := by
  unfold qRound
  rw [if_pos h0]
  have hmono : Int.floor (q + 1 / 2) ≤ Int.floor ((n : ℚ) + 1 / 2) :=
    Int.floor_le_floor (by linarith)
  have hn : Int.floor ((n : ℚ) + 1 / 2) = n := by
    rw [Int.floor_int_add]
    have : Int.floor ((1 : ℚ) / 2) = 0 := by
      rw [Int.floor_eq_zero_iff]
      constructor <;> norm_num
    omega
  omega

/-- Field bounds of the intersection with the image rectangle when it is
non-empty. -/
theorem intersected_img_bounds (wpx hpx : Nat) (s : RectF)
    (h : (s.intersected (loadedImgRect wpx hpx)).isEmpty = false) :
    0 ≤ (s.intersected (loadedImgRect wpx hpx)).x ∧
    0 ≤ (s.intersected (loadedImgRect wpx hpx)).w ∧
    (s.intersected (loadedImgRect wpx hpx)).x + (s.intersected (loadedImgRect wpx hpx)).w
      ≤ (wpx : ℚ) ∧
    0 ≤ (s.intersected (loadedImgRect wpx hpx)).y ∧
    0 ≤ (s.intersected (loadedImgRect wpx hpx)).h ∧
    (s.intersected (loadedImgRect wpx hpx)).y + (s.intersected (loadedImgRect wpx hpx)).h
      ≤ (hpx : ℚ) := by
  unfold RectF.intersected loadedImgRect at h ⊢
  split_ifs at h ⊢ with h1 h2
  · simp [RectF.isEmpty] at h
  · simp [RectF.isEmpty] at h
  · push_neg at h2
    dsimp only at h2 ⊢
    refine ⟨le_max_right _ _, by linarith [h2.1], ?_, le_max_right _ _, by linarith [h2.2], ?_⟩
    · have hmr : min (s.x + s.w) (0 + (wpx : ℚ)) ≤ 0 + (wpx : ℚ) := min_le_right _ _
      linarith
    · have hmr : min (s.y + s.h) (0 + (hpx : ℚ)) ≤ 0 + (hpx : ℚ) := min_le_right _ _
      linarith

/-- C6: on a left-button release during selection, a crop is emitted exactly
when the mapped selection rectangle and its intersection with the image
bounding rectangle are non-empty, the emitted crop is exactly
`QPixmap.copy(intersection.toRect())`, and that rectangle lies inside the
`W x H` pixel grid of the loaded image; with no loaded pixmap nothing is
emitted. -/
theorem canvas_crop_subregion (wpx hpx : Nat) (s : RectF) : cropProp wpx hpx s := by
  unfold cropProp
  refine ⟨by simp [mouseReleaseCrop], ?_, ?_⟩
  · by_cases hse : s.isEmpty = true
    · simp [mouseReleaseCrop, hse]
    · by_cases hie : (s.intersected (loadedImgRect wpx hpx)).isEmpty = true
      · simp [mouseReleaseCrop, hse, hie]
      · simp [mouseReleaseCrop, hse, hie]
  · intro r hr
    by_cases hse : s.isEmpty = true
    · simp [mouseReleaseCrop, hse] at hr
    · by_cases hie : (s.intersected (loadedImgRect wpx hpx)).isEmpty = true
      · simp [mouseReleaseCrop, hse, hie] at hr
      · simp [mouseReleaseCrop, hse, hie] at hr
        obtain ⟨hx, hw, hxw, hy, hh, hyh⟩ :=
          intersected_img_bounds wpx hpx s (by simp [hie])
        subst hr
        refine ⟨rfl, ?_, ?_, ?_, ?_⟩
        · show 0 ≤ qRound (s.intersected (loadedImgRect wpx hpx)).x
          exact qRound_nonneg _ hx
        · show 0 ≤ qRound (s.intersected (loadedImgRect wpx hpx)).y
          exact qRound_nonneg _ hy
        · show qRound ((s.intersected (loadedImgRect wpx hpx)).x +
            (s.intersected (loadedImgRect wpx hpx)).w) - 1 ≤ (wpx : Int) - 1
          have hle := qRound_le_int
            ((s.intersected (loadedImgRect wpx hpx)).x +
              (s.intersected (loadedImgRect wpx hpx)).w) (wpx : Int)
            (by linarith) (by push_cast; linarith)
          omega
        · show qRound ((s.intersected (loadedImgRect wpx hpx)).y +
            (s.intersected (loadedImgRect wpx hpx)).h) - 1 ≤ (hpx : Int) - 1
          have hle := qRound_le_int
            ((s.intersected (loadedImgRect wpx hpx)).y +
              (s.intersected (loadedImgRect wpx hpx)).h) (hpx : Int)
            (by linarith) (by push_cast; linarith)
          omega

/-! ## Claims C8 and C9: the configuration file -/

/-- Lookup distributes over list append (first hit wins). -/
theorem jLookup_append (A B : List (String × JVal)) (k : String) :
    jLookup (A ++ B) k = ((jLookup A k).or (jLookup B k)) := by
  induction A with
  | nil => simp [jLookup]
  | cons p rest ih =>
    obtain ⟨k0, v0⟩ := p
    by_cases hk : (k0 == k) = true
    · simp [jLookup, hk]
    · simp [jLookup, hk, ih]

/-- Lookup in the value-updated copy of `cur`. -/
theorem jLookup_map_update (data cur : List (String × JVal)) (k : String) :
    jLookup (cur.map (fun p => (p.1, (jLookup data p.1).getD p.2))) k =
      (jLookup cur k).map (fun v => (jLookup data k).getD v) := by
  induction cur with
  | nil => rfl
  | cons p rest ih =>
    obtain ⟨k0, v0⟩ := p
    by_cases hk : (k0 == k) = true
    · have hk0 : k0 = k := eq_of_beq hk
      subst hk0
      simp [jLookup, hk]
    · simp [jLookup, hk, ih]

/-- Lookup in the appended fresh entries of `data`. -/
theorem jLookup_filter_fresh (data cur : List (String × JVal)) (k : String) :
    jLookup (data.filter (fun p => (jLookup cur p.1).isNone)) k =
      (if (jLookup cur k).isSome then Option.none else jLookup data k) := by
  induction data with
  | nil =>
    simp only [List.filter_nil]
    cases jLookup cur k <;> simp [jLookup]
  | cons p rest ih =>
    obtain ⟨k0, v0⟩ := p
    rw [List.filter_cons]
    by_cases hk : (k0 == k) = true
    · have hk0 : k0 = k := eq_of_beq hk
      subst hk0
      cases hcur : jLookup cur k0 with
      | none => simp [jLookup, hk, hcur, ih]
      | some v => simp [jLookup, hk, hcur, ih]
    · by_cases hmem : ((jLookup cur k0).isNone : Bool) = true
      · simp only [hmem, if_true]
        simp [jLookup, hk, ih]
      · simp only [hmem, if_false, Bool.false_eq_true]
        rw [ih]
        simp [jLookup, hk]

/-- The merge property of `dict.update`: keys of `data` take the new value,
all other keys keep the old one. -/
theorem jLookup_update (cur data : List (String × JVal)) (k : String) :
    jLookup (jUpdate cur data) k = ((jLookup data k).or (jLookup cur k)) := by
  unfold jUpdate
  rw [jLookup_append, jLookup_map_update, jLookup_filter_fresh]
  cases hc : jLookup cur k <;> cases hd : jLookup data k <;> simp

/-- C8: `save_config(data)` is a read-merge-write: on success it returns
`True` and the stored configuration maps every key of `data` to its new value
and every other key to its previous value; when the write raises it returns
`False` and the file is unchanged. -/
theorem save_config_read_merge_write (data : List (String × JVal)) (fs : ConfigFS)
    (cur : List (String × JVal)) (hcur : load_config fs = .obj cur) :
    saveMergeProp data fs cur := by
  unfold saveMergeProp save_config configLookup
  rw [hcur]
  refine ⟨by simp, ?_, by simp⟩
  intro k
  simp only [if_true, load_config]
  exact jLookup_update cur data k

/-- Witness for C8 on a concrete two-key configuration and a two-key update
(one overlapping key, one fresh key). -/
theorem save_config_read_merge_write_witness :
    (load_config (some (some (JVal.obj [("a", JVal.str "1"), ("b", JVal.str "2")]))) =
      JVal.obj [("a", JVal.str "1"), ("b", JVal.str "2")]) ∧
    saveMergeProp [("b", JVal.str "3"), ("c", JVal.str "4")]
      (some (some (JVal.obj [("a", JVal.str "1"), ("b", JVal.str "2")])))
      [("a", JVal.str "1"), ("b", JVal.str "2")] :=
  ⟨rfl, save_config_read_merge_write [("b", JVal.str "3"), ("c", JVal.str "4")]
    (some (some (JVal.obj [("a", JVal.str "1"), ("b", JVal.str "2")])))
    [("a", JVal.str "1"), ("b", JVal.str "2")] rfl⟩

/-- C9: `load_config` is total and never raises: it returns the parsed JSON
content when the file exists and parses, and the empty dict when the file is
missing, unreadable or invalid. -/
theorem load_config_total :
    load_config Option.none = JVal.obj [] ∧
    load_config (some Option.none) = JVal.obj [] ∧
    ∀ v : JVal, load_config (some (some v)) = v :=
  ⟨rfl, rfl, fun _ => rfl⟩

/-! ## Claim C10: the successful-model history -/

/-- The cleaning loop emits no duplicates and nothing already seen. -/
theorem cleanModels_nodup : ∀ (xs : List JVal) (seen : List String),
    (cleanModels xs seen).Nodup ∧ ∀ v ∈ cleanModels xs seen, v ∉ seen := by
  intro xs
  induction xs with
  | nil => intro seen; exact ⟨List.nodup_nil, by simp [cleanModels]⟩
  | cons x rest ih =>
    intro seen
    rcases x with _ | b | n | sx | ar | ob
    case str =>
      by_cases hss : pyStrip sx = "" ∨ pyStrip sx ∈ seen
      · simpa [cleanModels, hss] using ih seen
      · push_neg at hss
        obtain ⟨hnd, hns⟩ := ih (pyStrip sx :: seen)
        have hres : cleanModels (JVal.str sx :: rest) seen =
            pyStrip sx :: cleanModels rest (pyStrip sx :: seen) := by
          simp [cleanModels, hss.1, hss.2]
        rw [hres]
        constructor
        · exact List.nodup_cons.mpr ⟨fun hm => (hns _ hm) (List.mem_cons_self _ _), hnd⟩
        · intro v hv
          rcases List.mem_cons.mp hv with h | h
          · rw [h]; exact hss.2
          · exact fun hseen => (hns _ h) (List.mem_cons_of_mem _ hseen)
    all_goals simpa [cleanModels] using ih seen

/-- Whatever is stored under `successful_models`, `_load_successful_models`
returns a duplicate-free list on a dict-shaped configuration. -/
theorem loadSuccessfulModels_ok (fs : ConfigFS) (cur : List (String × JVal))
    (hcur : load_config fs = .obj cur) :
    ∃ models : List String, loadSuccessfulModels fs = .ok models ∧ models.Nodup := by
  unfold loadSuccessfulModels
  rw [hcur]
  dsimp only
  cases hsm : (jLookup cur "successful_models").getD (.arr []) with
  | arr xs => exact ⟨cleanModels xs [], rfl, (cleanModels_nodup xs []).1⟩
  | null => exact ⟨[], rfl, List.nodup_nil⟩
  | bool b => exact ⟨[], rfl, List.nodup_nil⟩
  | num n => exact ⟨[], rfl, List.nodup_nil⟩
  | str s => exact ⟨[], rfl, List.nodup_nil⟩
  | obj o => exact ⟨[], rfl, List.nodup_nil⟩

/-- C10: `_save_successful_model` keeps a bounded most-recently-used history:
a blank or whitespace-only name leaves the stored configuration unchanged; a
non-blank name is stored stripped at the head of a duplicate-free
`successful_models` list of length at most 30. -/
theorem successful_models_mru (model : String) (fs : ConfigFS)
    (cur : List (String × JVal)) (hcur : load_config fs = .obj cur) :
    mruProp model fs := by
  unfold mruProp
  constructor
  · intro hb
    simp [saveSuccessfulModel, hb]
  · intro hnb
    obtain ⟨models, hml, hnd⟩ := loadSuccessfulModels_ok fs cur hcur
    have hkept_nd : (models.filter (fun x => x != pyStrip model)).Nodup :=
      hnd.filter _
    have hm_not : pyStrip model ∉ models.filter (fun x => x != pyStrip model) := by
      intro hm
      have := List.of_mem_filter hm
      simp at this
    refine ⟨((pyStrip model :: models.filter (fun x => x != pyStrip model)).take 30),
      (save_config [("successful_models",
        JVal.arr (((pyStrip model :: models.filter (fun x => x != pyStrip model)).take 30).map
          JVal.str))] true fs).2, ?_, ?_, ?_, ?_, ?_⟩
    · simp only [saveSuccessfulModel, hnb, if_false, hml]
    · unfold storedModels save_config
      rw [hcur]
      simp only [if_true, load_config]
      rw [jLookup_update]
      simp [jLookup]
    · rw [List.take_succ_cons]
      rfl
    · exact (List.take_sublist _ _).nodup (List.nodup_cons.mpr ⟨hm_not, hkept_nd⟩)
    · exact List.length_take_le _ _

/-- Witness for C10: saving `" m1 "` over a history containing junk and a
duplicate. -/
theorem successful_models_mru_witness :
    (load_config (some (some (JVal.obj [("successful_models",
        JVal.arr [JVal.str "m2", JVal.num 7, JVal.str " m1"])]))) =
      JVal.obj [("successful_models",
        JVal.arr [JVal.str "m2", JVal.num 7, JVal.str " m1"])]) ∧
    mruProp " m1 " (some (some (JVal.obj [("successful_models",
      JVal.arr [JVal.str "m2", JVal.num 7, JVal.str " m1"])]))) :=
  ⟨rfl, successful_models_mru " m1 "
    (some (some (JVal.obj [("successful_models",
      JVal.arr [JVal.str "m2", JVal.num 7, JVal.str " m1"])])))
    [("successful_models", JVal.arr [JVal.str "m2", JVal.num 7, JVal.str " m1"])] rfl⟩
